import Mathlib

/-!
# A verification development for the linger evaluator

This file embeds the core of the linger tree-walking evaluator
(`src/interpreter.rs`, `src/error.rs`, `src/tokenizer.rs`) in Lean and
proves the specified properties of block scoping, closures, calls, loops,
short-circuit operators, increment/decrement, indexing and the runtime
error taxonomy.

Modelling conventions:

* Rust `f64` numbers are modelled as `Rat` (exact arithmetic).  None of the
  properties verified here depends on rounding, `NaN` or infinities; in
  particular the divide-by-zero property is about *success* of evaluation,
  which holds for any total division operation.
* The interpreter is given a `Nat` fuel so the `while` loop and recursive
  calls terminate; `Outcome.timeout` marks fuel exhaustion and appears in
  no claim.  Every theorem quantifies over enough fuel.
* Rust panics (`usize` underflow / slice out of range in the list-index
  bound check, and the `todo!()` on string indexing) are modelled by the
  distinguished result `Outcome.panicked`, which is *not* a
  `RuntimeError`: the process aborts instead of reporting an error value.
* The `environment` module is not part of the sources available here, so
  the `Environment` operations are modelled from the specification's
  contracts for `lookup`/`declare`/`reassign`/`extend`/
  `mergeReassignments` (§3 and §4.1 of the spec); each such definition
  carries a doc comment starting with "Modelled from the spec".
* `print!` output is modelled by threading a list of written strings
  through evaluation, so that "no side effect occurs" is expressible as
  equality of the whole interpreter state (environment and output).
-/

/-- The operator enumeration of `tokenizer.rs`.  The four
increment/decrement operators are used by `interpreter.rs` but absent from
the `tokenizer.rs` present in the sources; they are included here following
the spec's closed operator enumeration (§6):
`+ - * / % == != < > <= >= || && ! ++pre post++ --pre post--`. -/
inductive Operator where
  | Plus | Minus | Times | Eq | Ne | LT | GT | LTE | GTE | Mod | Div
  | LogicOr | LogicAnd | LogicNot
  | PreIncrement | PostIncrement | PreDecrement | PostDecrement
deriving DecidableEq, Repr

/-- The closed builtin enumeration (`Print, List, IsEmpty, IsNil`). -/
inductive Builtin where
  | Print | List | IsEmpty | IsNil
deriving DecidableEq, Repr

/-- Modelled from the spec: mutability flag of a binding entry
(`Mutable | Constant`, spec §3). -/
inductive Mutability where
  | Mutable | Constant
deriving DecidableEq, Repr

mutual
/-- The expression tree consumed by the evaluator (spec §6; the `Expr` of
the `desugar` module, which `interpreter.rs` matches on). -/
inductive Expr where
  | Nil : Expr
  | Num : Rat → Expr
  | Bool : Bool → Expr
  | Str : String → Expr
  | Lambda : List String → Statement → Expr
  | Var : String → Expr
  | Binary : Operator → Expr → Expr → Expr
  | Unary : Operator → Expr → Expr
  | Call : Expr → List Expr → Expr
  | PrimitiveCall : Builtin → List Expr → Expr
  | Index : Expr → Expr → Expr

/-- The statement tree consumed by the evaluator (spec §6). -/
inductive Statement where
  | Expr : Expr → Statement
  | Let : String → Expr → Statement
  | Const : String → Expr → Statement
  | Assign : String → Expr → Statement
  | If : Expr → Statement → Option Statement → Statement
  | While : Expr → Statement → Statement
  | Return : Option Expr → Statement
  | Break : Statement
  | Continue : Statement
  | Block : List Statement → Statement
end

/-- Runtime values (`Value` in `interpreter.rs`).  A `Proc` carries its
parameter list, body and the captured environment snapshot; the
environment type `List (String × Value × Mutability)` is spelled out
inline because `Value` and the environment are mutually nested.  The
binding entry follows the spec's model `(value, mutability)` (§3). -/
inductive Value where
  | Num : Rat → Value
  | Bool : Bool → Value
  | Str : String → Value
  | Proc : List String → Statement → List (String × Value × Mutability) → Value
  | List : List Value → Value
  | Nil : Value

/-- Modelled from the spec: an Environment is a mapping from name to
binding entry, representing one full scope snapshot (§3). -/
def Environment := List (String × Value × Mutability)

/-- The four-state control-flow tag of `interpreter.rs`. -/
inductive ControlFlow where
  | Return | Normal | Break | Continue
deriving DecidableEq, Repr

/-- The runtime error taxonomy.  The first six constructors are the
`RuntimeError` enum declared in `error.rs`; the remaining ones are used by
`interpreter.rs` (their declaration is in a module version not present in
the sources) and follow the spec's taxonomy (§7). -/
inductive RuntimeError where
  | UnknownVariable : String → RuntimeError
  | UnknownProc : String → RuntimeError
  | BadArg : Value → RuntimeError
  | BadArgs : List Value → RuntimeError
  | ArgMismatch : String → Nat → Nat → RuntimeError
  | BadCondition : Value → RuntimeError
  | BreakNotInLoop : RuntimeError
  | ContinueNotInLoop : RuntimeError
  | InvalidAssignmentTarget : RuntimeError
  | UnaryAsBinary : Operator → RuntimeError
  | BinaryAsUnary : Operator → RuntimeError
  | ExpectedList : String → RuntimeError
  | ExpectedInteger : String → RuntimeError
  | IndexOutOfBounds : Int → RuntimeError
  | NotIndexable : String → RuntimeError

mutual
/-- The `fmt::Display` of `Value` in `interpreter.rs`: numbers and
booleans print themselves, `Nil` prints `nil`, strings print verbatim,
procedures print `<lambda>`, lists print their comma-joined elements in
brackets. -/
def valueToString : Value → String
  | .Num q => toString q
  | .Bool b => toString b
  | .Str s => s
  | .Proc _ _ _ => "<lambda>"
  | .Nil => "nil"
  | .List vs => "[" ++ String.intercalate ", " (valueListToStrings vs) ++ "]"

/-- The element-wise stringification of a list value
(`list.iter().map(|v| v.to_string()).collect()`). -/
def valueListToStrings : List Value → List String
  | [] => []
  | v :: rest => valueToString v :: valueListToStrings rest
end

/-- The `fmt::Display` of `LingerError::RuntimeError` in `error.rs`,
restricted to runtime errors.  Note the `ArgMismatch` case: `error.rs`
destructures the fields as `(proc_name, actual, expected)` and prints
`"procedure {} expected {expected} args, instead got {actual}"`, i.e. the
*third* field is displayed as the expected count and the *second* as the
actual one.  The constructors missing from `error.rs` are given messages
following the spec's taxonomy wording (§7); no claim depends on those
strings. -/
def displayRuntimeError : RuntimeError → String
  | .UnknownVariable id => "unknown variable \"" ++ id ++ "\""
  | .UnknownProc n => "unknown procedure \"" ++ n ++ "\""
  | .BadArg v => "bad argument \"" ++ valueToString v ++ "\""
  | .BadArgs args =>
      "bad args: [" ++ String.intercalate ", " (valueListToStrings args) ++ "]"
  | .ArgMismatch procName actual expected =>
      "procedure " ++ procName ++ " expected " ++ toString expected ++
        " args, instead got " ++ toString actual
  | .BadCondition v => "expected boolean value, instead got " ++ valueToString v
  | .BreakNotInLoop => "break outside of loop"
  | .ContinueNotInLoop => "continue outside of loop"
  | .InvalidAssignmentTarget => "invalid assignment target"
  | .UnaryAsBinary _ => "unary operator used as binary operator"
  | .BinaryAsUnary _ => "binary operator used as unary operator"
  | .ExpectedList s => "expected list, instead got " ++ s
  | .ExpectedInteger s => "expected integer, instead got " ++ s
  | .IndexOutOfBounds i => "index " ++ toString i ++ " out of bounds"
  | .NotIndexable s => "value " ++ s ++ " is not indexable"

/-- Modelled from the spec: lookup of a name's binding entry in an
Environment snapshot (§4.1 `lookup`). -/
def Environment.lookupEntry : Environment → String → Option (Value × Mutability)
  | [], _ => none
  | e :: rest, x => if e.1 = x then some e.2 else Environment.lookupEntry rest x

/-- Modelled from the spec: the value stored for a name, if any. -/
def Environment.lookupValue (env : Environment) (x : String) : Option Value :=
  (env.lookupEntry x).map (·.1)

/-- Modelled from the spec: store a binding entry for a name, replacing
any existing entry for that name (the environment is a mapping, so
`declare` shadowing an existing binding is an overwrite of its entry,
§3/§4.1 `declare`). -/
def Environment.setEntry (env : Environment) (x : String) (v : Value)
    (m : Mutability) : Environment :=
  (x, v, m) :: List.filter (fun e => e.1 ≠ x) env

/-- `env.get` as used by `interpreter.rs` for `Expr::Var`: the stored
value, or `UnknownVariable` (spec §4.1 `lookup`). -/
def Environment.get (env : Environment) (x : String) :
    Except RuntimeError Value :=
  match env.lookupEntry x with
  | some (v, _) => .ok v
  | none => .error (.UnknownVariable x)

/-- `env.insert_new_mutable_value` (spec §4.1 `declare` with `Mutable`). -/
def Environment.insert_new_mutable_value (env : Environment) (x : String)
    (v : Value) : Environment :=
  env.setEntry x v .Mutable

/-- `env.insert_new_constant_value` (spec §4.1 `declare` with `Constant`). -/
def Environment.insert_new_constant_value (env : Environment) (x : String)
    (v : Value) : Environment :=
  env.setEntry x v .Constant

/-- Modelled from the spec: `reassign(name, value)` fails with
`UnknownVariable` if the name has no binding and otherwise overwrites the
stored value (§4.1).  The spec leaves rejection of reassigning a
`Constant` binding as an open question (§9) and its observed error
taxonomy has no such error kind, so reassignment here succeeds for both
mutabilities, keeping the entry's mutability flag. -/
def Environment.reassign (env : Environment) (x : String) (v : Value) :
    Except RuntimeError Environment :=
  match env.lookupEntry x with
  | some (_, m) => .ok (env.setEntry x v m)
  | none => .error (.UnknownVariable x)

/-- Modelled from the spec: `extend(bindings)` — a clone of the receiver
with each given binding added/shadowed (§4.1), used to build call frames. -/
def Environment.extend (env : Environment)
    (bindings : List (String × Value × Mutability)) : Environment :=
  bindings.foldl (fun e b => e.setEntry b.1 b.2.1 b.2.2) env

/-- Modelled from the spec: `mergeReassignments(childEnv)`
(`update_reassigned_entries` at its call sites in `interpreter.rs`): for
every name bound in both the receiver and `childEnv`, the child's value is
copied into the receiver; names unique to `childEnv` are ignored (§4.1).
The spec guards the copy with "if the stored value differs", which is
collapsed here: copying an equal value is the identity, so the guarded and
unguarded forms are extensionally the same operation. -/
def mergeEntry (child : Environment) (e : String × Value × Mutability) :
    String × Value × Mutability :=
  match child.lookupEntry e.1 with
  | some (v, _) => (e.1, v, e.2.2)
  | none => e

/-- Modelled from the spec: see `mergeEntry` above for the per-entry copy;
the merge applies it to every entry of the receiver, so the merged
environment has exactly the receiver's names. -/
def Environment.update_reassigned_entries : Environment → Environment → Environment
  | [], _ => []
  | e :: rest, child =>
    mergeEntry child e :: Environment.update_reassigned_entries rest child

/-- The result of running the interpreter: a success, a `RuntimeError`, a
fuel exhaustion (a modelling artifact: the Rust loop just keeps running),
or a Rust panic (process abort). -/
inductive Outcome (α : Type) where
  | ok : α → Outcome α
  | err : RuntimeError → Outcome α
  | timeout : Outcome α
  | panicked : Outcome α

/-- Interpreter state: the current environment together with everything
written to the output sink so far (one list entry per `print!`). -/
structure St where
  env : Environment
  out : List String

/-- Truncation toward zero, the rounding Rust's `f64` `%` uses for its
quotient. -/
def ratTrunc (q : Rat) : Int := if 0 ≤ q then ⌊q⌋ else ⌈q⌉

/-- The non-short-circuit binary operator arms of `interp_expression`
(`interpreter.rs` lines 159-295), factored over the two already-evaluated
operand values.  `interpreter.rs` evaluates both operands first and then
matches exactly these patterns, in this order.  The final catch-all `o`
arm mirrors `op => Err(UnaryAsBinary(op))` and is only reachable from the
evaluator for the increment/decrement and `!` operators, which the
evaluator rejects before evaluating any operand. -/
def applyBinary : Operator → Value → Value → Except RuntimeError Value
  | .Plus, .Num a, .Num b => .ok (.Num (a + b))
  | .Plus, .Str a, .Str b => .ok (.Str (a ++ b))
  | .Plus, .List a, .List b => .ok (.List (a ++ b))
  | .Plus, .Num _, v => .error (.BadArg v)
  | .Plus, v, _ => .error (.BadArg v)
  | .Minus, .Num a, .Num b => .ok (.Num (a - b))
  | .Minus, .Num _, v => .error (.BadArg v)
  | .Minus, v, _ => .error (.BadArg v)
  | .Eq, .Num a, .Num b => .ok (.Bool (decide (a = b)))
  | .Eq, .Bool a, .Bool b => .ok (.Bool (a == b))
  | .Eq, l, r => .error (.BadArgs [l, r])
  | .Ne, .Num a, .Num b => .ok (.Bool (decide (a ≠ b)))
  | .Ne, .Bool a, .Bool b => .ok (.Bool (a != b))
  | .Ne, l, r => .error (.BadArgs [l, r])
  | .LT, .Num a, .Num b => .ok (.Bool (decide (a < b)))
  | .LT, l, r => .error (.BadArgs [l, r])
  | .GT, .Num a, .Num b => .ok (.Bool (decide (a > b)))
  | .GT, l, r => .error (.BadArgs [l, r])
  | .LTE, .Num a, .Num b => .ok (.Bool (decide (a ≤ b)))
  | .LTE, l, r => .error (.BadArgs [l, r])
  | .GTE, .Num a, .Num b => .ok (.Bool (decide (a ≥ b)))
  | .GTE, l, r => .error (.BadArgs [l, r])
  | .Times, .Num a, .Num b => .ok (.Num (a * b))
  | .Times, l, r => .error (.BadArgs [l, r])
  | .Mod, .Num a, .Num b => .ok (.Num (a - b * (ratTrunc (a / b) : Rat)))
  | .Mod, l, r => .error (.BadArgs [l, r])
  | .Div, .Num a, .Num b => .ok (.Num (a / b))
  | .Div, l, r => .error (.BadArgs [l, r])
  | o, _, _ => .error (.UnaryAsBinary o)

mutual
/-- `interp_expression` of `interpreter.rs`, with explicit fuel and with
the output sink threaded through the state.  Each arm mirrors the Rust
match arm for the same expression constructor; sub-evaluations run at one
less fuel. -/
def interp_expression : Nat → St → Expr → Outcome (Value × St)
  | 0, _, _ => .timeout
  | _ + 1, st, .Nil => .ok (.Nil, st)
  | _ + 1, st, .Num n => .ok (.Num n, st)
  | _ + 1, st, .Bool b => .ok (.Bool b, st)
  | _ + 1, st, .Str s => .ok (.Str s, st)
  | _ + 1, st, .Lambda params body => .ok (.Proc params body st.env, st)
  | _ + 1, st, .Var id =>
    (match st.env.get id with
     | .ok v => .ok (v, st)
     | .error e => .err e)
  | f + 1, st, .Binary op left right =>
    (match op with
     | .LogicOr =>
       (match interp_expression f st left with
        | .ok (.Bool true, st₁) => .ok (.Bool true, st₁)
        | .ok (.Bool false, st₁) =>
          (match interp_expression f st₁ right with
           | .ok (.Bool b, st₂) => .ok (.Bool b, st₂)
           | .ok (rightValue, _) => .err (.BadArg rightValue)
           | r => r)
        | .ok (leftValue, _) => .err (.BadArg leftValue)
        | r => r)
     | .LogicAnd =>
       (match interp_expression f st left with
        | .ok (.Bool false, st₁) => .ok (.Bool false, st₁)
        | .ok (.Bool true, st₁) =>
          (match interp_expression f st₁ right with
           | .ok (.Bool b, st₂) => .ok (.Bool b, st₂)
           | .ok (rightValue, _) => .err (.BadArg rightValue)
           | r => r)
        | .ok (leftValue, _) => .err (.BadArg leftValue)
        | r => r)
     | .PreIncrement => .err (.UnaryAsBinary .PreIncrement)
     | .PostIncrement => .err (.UnaryAsBinary .PostIncrement)
     | .PreDecrement => .err (.UnaryAsBinary .PreDecrement)
     | .PostDecrement => .err (.UnaryAsBinary .PostDecrement)
     | .LogicNot => .err (.UnaryAsBinary .LogicNot)
     | o =>
       (match interp_expression f st left with
        | .ok (vl, st₁) =>
          (match interp_expression f st₁ right with
           | .ok (vr, st₂) =>
             (match applyBinary o vl vr with
              | .ok v => .ok (v, st₂)
              | .error e => .err e)
           | r => r)
        | r => r))
  | f + 1, st, .Unary op operand =>
    (match op with
     | .PreIncrement =>
       (match operand with
        | .Var id =>
          (match interp_expression f st (.Var id) with
           | .ok (.Num n, st₁) =>
             (match st₁.env.reassign id (.Num (n + 1)) with
              | .ok env₁ => .ok (.Num (n + 1), ⟨env₁, st₁.out⟩)
              | .error e => .err e)
           | .ok (v, _) => .err (.BadArg v)
           | r => r)
        | _ => .err .InvalidAssignmentTarget)
     | .PostIncrement =>
       (match operand with
        | .Var id =>
          (match interp_expression f st (.Var id) with
           | .ok (.Num n, st₁) =>
             (match st₁.env.reassign id (.Num (n + 1)) with
              | .ok env₁ => .ok (.Num n, ⟨env₁, st₁.out⟩)
              | .error e => .err e)
           | .ok (v, _) => .err (.BadArg v)
           | r => r)
        | _ => .err .InvalidAssignmentTarget)
     | .PreDecrement =>
       (match operand with
        | .Var id =>
          (match interp_expression f st (.Var id) with
           | .ok (.Num n, st₁) =>
             (match st₁.env.reassign id (.Num (n - 1)) with
              | .ok env₁ => .ok (.Num (n - 1), ⟨env₁, st₁.out⟩)
              | .error e => .err e)
           | .ok (v, _) => .err (.BadArg v)
           | r => r)
        | _ => .err .InvalidAssignmentTarget)
     | .PostDecrement =>
       (match operand with
        | .Var id =>
          (match interp_expression f st (.Var id) with
           | .ok (.Num n, st₁) =>
             (match st₁.env.reassign id (.Num (n - 1)) with
              | .ok env₁ => .ok (.Num n, ⟨env₁, st₁.out⟩)
              | .error e => .err e)
           | .ok (v, _) => .err (.BadArg v)
           | r => r)
        | _ => .err .InvalidAssignmentTarget)
     | .Minus =>
       (match interp_expression f st operand with
        | .ok (.Num n, st₁) => .ok (.Num (-n), st₁)
        | .ok (v, _) => .err (.BadArg v)
        | r => r)
     | .LogicNot =>
       (match interp_expression f st operand with
        | .ok (.Bool b, st₁) => .ok (.Bool (!b), st₁)
        | .ok (v, _) => .err (.BadArg v)
        | r => r)
     | o => .err (.BinaryAsUnary o))
  | f + 1, st, .Call fExpr args =>
    (match interp_expression f st fExpr with
     | .ok (.Proc fParams fBody fEnv, st₁) =>
       if args.length ≠ fParams.length then
         .err (.ArgMismatch (match fExpr with | .Var n => n | _ => "<lambda>")
                 fParams.length args.length)
       else
         (match interp_expressions f st₁ args with
          | .ok (argValues, st₂) =>
            (match interp_statement f
                ⟨Environment.extend fEnv
                   (fParams.zip (argValues.map fun v => (v, Mutability.Constant))),
                 st₂.out⟩ fBody false with
             | .ok ((value, _), st₃) => .ok (value, ⟨st₂.env, st₃.out⟩)
             | .err e => .err e
             | .timeout => .timeout
             | .panicked => .panicked)
          | .err e => .err e
          | .timeout => .timeout
          | .panicked => .panicked)
     | .ok (v, _) => .err (.BadArg v)
     | r => r)
  | f + 1, st, .PrimitiveCall builtin args =>
    (match builtin with
     | .Print =>
       (match interp_expressions f st args with
        | .ok (values, st₁) =>
          .ok (.Nil, ⟨st₁.env, st₁.out ++ [String.intercalate " " (values.map valueToString)]⟩)
        | .err e => .err e
        | .timeout => .timeout
        | .panicked => .panicked)
     | .List =>
       (match interp_expressions f st args with
        | .ok (values, st₁) => .ok (.List values, st₁)
        | .err e => .err e
        | .timeout => .timeout
        | .panicked => .panicked)
     | .IsEmpty =>
       if args.length > 1 then .err (.ArgMismatch "is_empty" args.length 1)
       else
         (match args.head? with
          | none => .err (.ArgMismatch "is_empty" 0 1)
          | some arg =>
            (match interp_expression f st arg with
             | .ok (.List l, st₁) => .ok (.Bool l.isEmpty, st₁)
             | .ok (badArg, _) => .err (.ExpectedList (valueToString badArg))
             | r => r))
     | .IsNil =>
       if args.length > 1 then .err (.ArgMismatch "is_nil" args.length 1)
       else
         (match args.head? with
          | none => .err (.ArgMismatch "is_nil" 0 1)
          | some arg =>
            (match interp_expression f st arg with
             | .ok (.Nil, st₁) => .ok (.Bool true, st₁)
             | .ok (_, st₁) => .ok (.Bool false, st₁)
             | r => r)))
  | f + 1, st, .Index indexableExpr indexExpr =>
    (match interp_expression f st indexableExpr with
     | .ok (.List list, st₁) =>
       (match interp_expression f st₁ indexExpr with
        | .ok (.Num num, st₂) =>
          if num.den ≠ 1 then .err (.ExpectedInteger (toString num))
          else
            if num.num < 0 then .err (.IndexOutOfBounds num.num)
            else if list.length = 0 then .panicked
            else if list.length - 1 < num.num.toNat then .err (.IndexOutOfBounds num.num)
            else
              (match list[num.num.toNat]? with
               | some v => .ok (v, st₂)
               | none => .panicked)
        | .ok (badValue, _) => .err (.ExpectedInteger (valueToString badValue))
        | r => r)
     | .ok (.Str _, _) => .panicked
     | .ok (value, _) => .err (.NotIndexable (valueToString value))
     | r => r)

/-- Left-to-right evaluation of an expression list in the caller's
current environment (the `args.into_iter().map(...).collect()` of the
call case and the argument loops of the builtins). -/
def interp_expressions : Nat → St → List Expr → Outcome (List Value × St)
  | 0, _, _ => .timeout
  | _ + 1, st, [] => .ok ([], st)
  | f + 1, st, e :: rest =>
    (match interp_expression f st e with
     | .ok (v, st₁) =>
       (match interp_expressions f st₁ rest with
        | .ok (vs, st₂) => .ok (v :: vs, st₂)
        | r => r)
     | .err e' => .err e'
     | .timeout => .timeout
     | .panicked => .panicked)

/-- `interp_statement` of `interpreter.rs`. -/
def interp_statement : Nat → St → Statement → Bool → Outcome ((Value × ControlFlow) × St)
  | 0, _, _, _ => .timeout
  | f + 1, st, .Expr e, _ =>
    (match interp_expression f st e with
     | .ok (v, st₁) => .ok ((v, .Normal), st₁)
     | .err e' => .err e'
     | .timeout => .timeout
     | .panicked => .panicked)
  | f + 1, st, .Let id e, _ =>
    (match interp_expression f st e with
     | .ok (v, st₁) =>
       .ok ((.Nil, .Normal), ⟨st₁.env.insert_new_mutable_value id v, st₁.out⟩)
     | .err e' => .err e'
     | .timeout => .timeout
     | .panicked => .panicked)
  | f + 1, st, .Const id e, _ =>
    (match interp_expression f st e with
     | .ok (v, st₁) =>
       .ok ((.Nil, .Normal), ⟨st₁.env.insert_new_constant_value id v, st₁.out⟩)
     | .err e' => .err e'
     | .timeout => .timeout
     | .panicked => .panicked)
  | f + 1, st, .Assign id e, _ =>
    (match interp_expression f st e with
     | .ok (v, st₁) =>
       (match st₁.env.reassign id v with
        | .ok env₁ => .ok ((.Nil, .Normal), ⟨env₁, st₁.out⟩)
        | .error er => .err er)
     | .err e' => .err e'
     | .timeout => .timeout
     | .panicked => .panicked)
  | f + 1, st, .If condExpr thenStatement elseStatementOption, inLoop =>
    (match interp_expression f st condExpr with
     | .ok (.Bool b, st₁) =>
       if b then interp_statement f st₁ thenStatement inLoop
       else
         (match elseStatementOption with
          | some elseStatement => interp_statement f st₁ elseStatement inLoop
          | none => .ok ((.Nil, .Normal), st₁))
     | .ok (v, _) => .err (.BadArg v)
     | .err e' => .err e'
     | .timeout => .timeout
     | .panicked => .panicked)
  | f + 1, st, .While condExpr whileBlock, inLoop =>
    (match interp_expression f st condExpr with
     | .ok (.Bool true, st₁) =>
       (match interp_statement f st₁ whileBlock true with
        | .ok ((value, .Return), st₂) => .ok ((value, .Return), st₂)
        | .ok ((_, .Break), st₂) => .ok ((.Nil, .Normal), st₂)
        | .ok ((_, .Normal), st₂) => interp_statement f st₂ (.While condExpr whileBlock) inLoop
        | .ok ((_, .Continue), st₂) => interp_statement f st₂ (.While condExpr whileBlock) inLoop
        | .err e' => .err e'
        | .timeout => .timeout
        | .panicked => .panicked)
     | .ok (.Bool false, st₁) => .ok ((.Nil, .Normal), st₁)
     | .ok (v, _) => .err (.BadArg v)
     | .err e' => .err e'
     | .timeout => .timeout
     | .panicked => .panicked)
  | f + 1, st, .Return exprOption, _ =>
    (match exprOption with
     | some e =>
       (match interp_expression f st e with
        | .ok (v, st₁) => .ok ((v, .Return), st₁)
        | .err e' => .err e'
        | .timeout => .timeout
        | .panicked => .panicked)
     | none => .ok ((.Nil, .Return), st))
  | _ + 1, st, .Break, _ => .ok ((.Nil, .Break), st)
  | _ + 1, st, .Continue, _ => .ok ((.Nil, .Continue), st)
  | f + 1, st, .Block statements, inLoop =>
    (match interp_statements f st statements inLoop .Nil with
     | .ok ((v, cf), st₁) =>
       .ok ((v, cf), ⟨st.env.update_reassigned_entries st₁.env, st₁.out⟩)
     | .err e' => .err e'
     | .timeout => .timeout
     | .panicked => .panicked)

/-- The statement loop of the `Block` arm of `interp_statement`
(`interpreter.rs` lines 113-144): run the statements in sequence in the
block's working environment (the clone of the outer one), keeping the last
`Normal` value as the running block value, propagating `Return`
immediately and `Break`/`Continue` only when `inLoop` holds (else the
corresponding not-in-loop error).  The merge-back into the outer
environment, which in the Rust code precedes every `return` of this loop,
is applied once to this function's result by the `Block` arm above. -/
def interp_statements : Nat → St → List Statement → Bool → Value →
    Outcome ((Value × ControlFlow) × St)
  | 0, _, _, _, _ => .timeout
  | _ + 1, st, [], _, blockValue => .ok ((blockValue, .Normal), st)
  | f + 1, st, s :: rest, inLoop, _ =>
    (match interp_statement f st s inLoop with
     | .ok ((v, .Normal), st₁) => interp_statements f st₁ rest inLoop v
     | .ok ((v, .Return), st₁) => .ok ((v, .Return), st₁)
     | .ok ((v, .Break), st₁) =>
       if inLoop then .ok ((v, .Break), st₁) else .err .BreakNotInLoop
     | .ok ((v, .Continue), st₁) =>
       if inLoop then .ok ((v, .Continue), st₁) else .err .ContinueNotInLoop
     | .err e' => .err e'
     | .timeout => .timeout
     | .panicked => .panicked)
end

/-- The merge keeps each entry's name. -/
theorem mergeEntry_fst (child : Environment) (e : String × Value × Mutability) :
    (mergeEntry child e).1 = e.1 := by
  unfold mergeEntry
  cases Environment.lookupEntry child e.1 with
  | none => rfl
  | some p => obtain ⟨v, m⟩ := p; rfl

/-- What the merge stores for any name: nothing if the receiver had
nothing; otherwise the receiver's entry with its value replaced by the
child's whenever the child also binds the name. -/
theorem lookupEntry_update_reassigned_entries (env child : Environment)
    (x : String) :
    Environment.lookupEntry (env.update_reassigned_entries child) x
      = (env.lookupEntry x).map (fun e =>
          match Environment.lookupEntry child x with
          | some (v, _) => (v, e.2)
          | none => e) := by
  induction env with
  | nil => rfl
  | cons hd tl ih =>
    show Environment.lookupEntry
        (mergeEntry child hd :: Environment.update_reassigned_entries tl child) x = _
    by_cases hx : hd.1 = x
    · rw [Environment.lookupEntry, Environment.lookupEntry,
        if_pos ((mergeEntry_fst child hd).trans hx ▸ rfl : (mergeEntry child hd).1 = x),
        if_pos hx]
      show some (mergeEntry child hd).2 = _
      unfold mergeEntry
      rw [hx]
      cases hc : Environment.lookupEntry child x with
      | none => rfl
      | some p => obtain ⟨v, m⟩ := p; rfl
    · rw [Environment.lookupEntry, Environment.lookupEntry,
        if_neg (fun hcon => hx ((mergeEntry_fst child hd).symm.trans hcon)),
        if_neg hx]
      exact ih

/-- A name absent from the receiver is absent from the merged environment:
the merge never adds names (spec §4.1: names unique to the child are
ignored). -/
theorem update_reassigned_entries_absent (env child : Environment) (x : String)
    (h : env.lookupEntry x = none) :
    (env.update_reassigned_entries child).lookupEntry x = none := by
  rw [lookupEntry_update_reassigned_entries, h]
  rfl

/-- A name bound in both receiver and child holds the child's value after
the merge (spec §4.1: the child's value is copied into the receiver). -/
theorem update_reassigned_entries_common (env child : Environment) (x : String)
    (e e' : Value × Mutability)
    (h : env.lookupEntry x = some e) (h' : child.lookupEntry x = some e') :
    (env.update_reassigned_entries child).lookupValue x = some e'.1 := by
  unfold Environment.lookupValue
  rw [lookupEntry_update_reassigned_entries, h, h']
  obtain ⟨v', m'⟩ := e'
  rfl

/-- C1: when a `Block` statement finishes with any control-flow tag, the
outer environment afterwards is the merge of its pre-block state with the
block's working environment: every name already bound outside and (re)bound
inside holds the block-side value afterwards — so a reassignment made
inside the block escapes — while every name that was not bound outside
(in particular each name newly declared with `let`/`const` inside the
block) is absent from the outer environment afterwards.  The hypothesis
runs the block's statement list in the working copy of the state
(`interp_statements`), which is exactly what the `Block` arm of
`interp_statement` does before merging, whichever of the four tags it
stops with. -/
theorem C1_block_scoping (f : Nat) (st : St) (ss : List Statement) (il : Bool)
    (v : Value) (cf : ControlFlow) (st' : St)
    (h : interp_statements f st ss il .Nil = .ok ((v, cf), st')) :
    interp_statement (f + 1) st (.Block ss) il
      = .ok ((v, cf), ⟨st.env.update_reassigned_entries st'.env, st'.out⟩) ∧
    (∀ x, st.env.lookupEntry x = none →
      (st.env.update_reassigned_entries st'.env).lookupEntry x = none) ∧
    (∀ x e e', st.env.lookupEntry x = some e →
      Environment.lookupEntry st'.env x = some e' →
      (st.env.update_reassigned_entries st'.env).lookupValue x = some e'.1) := by
  refine ⟨?_, ?_, ?_⟩
  · simp only [interp_statement]
    rw [h]
  · intro x hx
    exact update_reassigned_entries_absent _ _ _ hx
  · intro x e e' he he'
    exact update_reassigned_entries_common _ _ _ e e' he he'

/-- Witness for C1: in an outer scope where mutable `x` holds `5`, the
block `{ x = 10; let y = 1; }` finishes Normal; afterwards the outer
environment holds `10` for the reassigned `x` and still has no binding for
the block-declared `y`. -/
theorem C1_block_scoping_witness :
    interp_statement 5 ⟨[("x", .Num 5, .Mutable)], []⟩
        (.Block [.Assign "x" (.Num 10), .Let "y" (.Num 1)]) false
      = .ok ((Value.Nil, .Normal), ⟨[("x", .Num 10, .Mutable)], []⟩) ∧
    Environment.lookupValue
        (Environment.update_reassigned_entries [("x", .Num 5, .Mutable)]
          [("y", .Num 1, .Mutable), ("x", .Num 10, .Mutable)]) "x"
      = some (.Num 10) ∧
    Environment.lookupEntry
        (Environment.update_reassigned_entries [("x", .Num 5, .Mutable)]
          [("y", .Num 1, .Mutable), ("x", .Num 10, .Mutable)]) "y"
      = none := by
  have h := C1_block_scoping 4 ⟨[("x", .Num 5, .Mutable)], []⟩
    [.Assign "x" (.Num 10), .Let "y" (.Num 1)] false
    .Nil .Normal ⟨[("y", .Num 1, .Mutable), ("x", .Num 10, .Mutable)], []⟩ rfl
  exact ⟨h.1, h.2.2 "x" (.Num 5, .Mutable) (.Num 10, .Mutable) rfl rfl,
    h.2.1 "y" rfl⟩

/-- C2: closures are value snapshots.  (1) Evaluating a `Lambda` yields a
`Proc` capturing the environment at that moment, leaving the state
untouched.  (2) A `Proc` that was captured over an environment binding `x`
to `v` returns `v` when called later from *any* caller environment — in
particular from a defining scope whose `x` has since been reassigned — so
the closure sees the value as of creation time.  (3) A `Proc` whose body
reassigns `x` leaves the caller's state exactly as it was: the
reassignment hits only the captured copy inside the call frame and is
never visible in the defining scope. -/
theorem C2_closure_snapshot :
    (∀ (f : Nat) (st : St) (ps : List String) (b : Statement),
      interp_expression (f + 1) st (.Lambda ps b) = .ok (.Proc ps b st.env, st)) ∧
    (∀ (f : Nat) (env env₂ : Environment) (out₂ : List String) (g x : String)
        (v : Value) (m m' : Mutability),
      Environment.lookupEntry env x = some (v, m) →
      Environment.lookupEntry env₂ g
        = some (.Proc [] (.Return (some (.Var x))) env, m') →
      interp_expression (f + 4) ⟨env₂, out₂⟩ (.Call (.Var g) [])
        = .ok (v, ⟨env₂, out₂⟩)) ∧
    (∀ (f : Nat) (env env₂ : Environment) (out₂ : List String) (g x : String)
        (w : Rat) (v : Value) (m m' : Mutability),
      Environment.lookupEntry env x = some (v, m) →
      Environment.lookupEntry env₂ g
        = some (.Proc [] (.Assign x (.Num w)) env, m') →
      interp_expression (f + 4) ⟨env₂, out₂⟩ (.Call (.Var g) [])
        = .ok (.Nil, ⟨env₂, out₂⟩)) := by
  refine ⟨fun f st ps b => rfl, ?_, ?_⟩
  · intro f env env₂ out₂ g x v m m' h₁ h₂
    simp only [interp_expression, interp_expressions, interp_statement,
      Environment.get, Environment.extend, h₁, h₂, List.length_nil, ne_eq,
      not_true_eq_false, if_false, List.zip_nil_left, List.map_nil, List.foldl_nil]
  · intro f env env₂ out₂ g x w v m m' h₁ h₂
    simp only [interp_expression, interp_expressions, interp_statement,
      Environment.get, Environment.extend, Environment.reassign, h₁, h₂,
      List.length_nil, ne_eq, not_true_eq_false, if_false, List.zip_nil_left,
      List.map_nil, List.foldl_nil]

/-- Witness for C2: a closure over `x = 5` still returns `5` when called
from a scope whose own `x` is `99`; a closure whose body does `x = 42`
returns `Nil` and leaves the calling scope's state untouched. -/
theorem C2_closure_snapshot_witness :
    interp_expression 4
        ⟨[("x", .Num 99, .Mutable),
          ("g", .Proc [] (.Return (some (.Var "x"))) [("x", .Num 5, .Mutable)],
            .Constant)], []⟩
        (.Call (.Var "g") [])
      = .ok (.Num 5,
          ⟨[("x", .Num 99, .Mutable),
            ("g", .Proc [] (.Return (some (.Var "x"))) [("x", .Num 5, .Mutable)],
              .Constant)], []⟩) ∧
    interp_expression 4
        ⟨[("x", .Num 5, .Mutable),
          ("h", .Proc [] (.Assign "x" (.Num 42)) [("x", .Num 5, .Mutable)],
            .Constant)], []⟩
        (.Call (.Var "h") [])
      = .ok (.Nil,
          ⟨[("x", .Num 5, .Mutable),
            ("h", .Proc [] (.Assign "x" (.Num 42)) [("x", .Num 5, .Mutable)],
              .Constant)], []⟩) :=
  ⟨C2_closure_snapshot.2.1 0 [("x", .Num 5, .Mutable)]
      [("x", .Num 99, .Mutable),
       ("g", .Proc [] (.Return (some (.Var "x"))) [("x", .Num 5, .Mutable)],
         .Constant)] [] "g" "x" (.Num 5) .Mutable .Constant rfl rfl,
   C2_closure_snapshot.2.2 0 [("x", .Num 5, .Mutable)]
      [("x", .Num 5, .Mutable),
       ("h", .Proc [] (.Assign "x" (.Num 42)) [("x", .Num 5, .Mutable)],
         .Constant)] [] "h" "x" 42 (.Num 5) .Mutable .Constant rfl rfl⟩

/-- C3: a call whose callee evaluates to a `Proc` and whose argument count
equals the parameter count builds its frame by extending the callee's
*captured* environment (the caller's environment appears nowhere in the
frame) with the evaluated arguments bound as `Constant`, runs the body
with the loop flag `false`, and returns the value component of the body's
result whatever its control-flow tag `cf` is; the caller keeps its own
environment (`st₂.env`) afterwards. -/
theorem C3_call_semantics (f : Nat) (st st₁ st₂ st₃ : St) (fExpr : Expr)
    (args : List Expr) (ps : List String) (b : Statement) (cenv : Environment)
    (vs : List Value) (v : Value) (cf : ControlFlow)
    (h₁ : interp_expression f st fExpr = .ok (.Proc ps b cenv, st₁))
    (hlen : args.length = ps.length)
    (h₂ : interp_expressions f st₁ args = .ok (vs, st₂))
    (h₃ : interp_statement f
        ⟨Environment.extend cenv (ps.zip (vs.map fun v => (v, Mutability.Constant))), st₂.out⟩
        b false = .ok ((v, cf), st₃)) :
    interp_expression (f + 1) st (.Call fExpr args) = .ok (v, ⟨st₂.env, st₃.out⟩) := by
  simp only [interp_expression, h₁, hlen, h₂, h₃, ne_eq, not_true_eq_false, if_false]

/-- Witness for C3: calling a one-parameter closure captured over
`x = 7` from a scope whose `x` is `99` binds the argument in the captured
frame and returns the captured `7`, collapsing the body's `Return` tag. -/
theorem C3_call_semantics_witness :
    interp_expression 4
        ⟨[("x", .Num 99, .Mutable),
          ("g", .Proc ["a"] (.Return (some (.Var "x"))) [("x", .Num 7, .Mutable)],
            .Constant)], []⟩
        (.Call (.Var "g") [.Nil])
      = .ok (.Num 7,
          ⟨[("x", .Num 99, .Mutable),
            ("g", .Proc ["a"] (.Return (some (.Var "x"))) [("x", .Num 7, .Mutable)],
              .Constant)], []⟩) :=
  C3_call_semantics 3
    ⟨[("x", .Num 99, .Mutable),
      ("g", .Proc ["a"] (.Return (some (.Var "x"))) [("x", .Num 7, .Mutable)],
        .Constant)], []⟩
    ⟨[("x", .Num 99, .Mutable),
      ("g", .Proc ["a"] (.Return (some (.Var "x"))) [("x", .Num 7, .Mutable)],
        .Constant)], []⟩
    ⟨[("x", .Num 99, .Mutable),
      ("g", .Proc ["a"] (.Return (some (.Var "x"))) [("x", .Num 7, .Mutable)],
        .Constant)], []⟩
    ⟨[("a", .Nil, .Constant), ("x", .Num 7, .Mutable)], []⟩
    (.Var "g") [.Nil] ["a"] (.Return (some (.Var "x"))) [("x", .Num 7, .Mutable)]
    [.Nil] (.Num 7) .Return rfl rfl rfl rfl

/-- C4: `While` semantics.  The condition must evaluate to a `Bool` (else
the evaluation fails reporting the value); on `false` the loop stops with
`(Nil, Normal)`; on `true` the body runs with the loop flag set, and then:
a `Return` from the body stops the loop propagating `(value, Return)`, a
`Break` stops it with `(Nil, Normal)`, and `Normal` or `Continue`
continue with the loop statement itself — i.e. the condition is
re-evaluated before the next iteration. -/
theorem C4_while_semantics (f : Nat) (st st₁ st₂ : St) (c : Expr) (b : Statement)
    (il : Bool) :
    (∀ v, interp_expression f st c = .ok (v, st₁) → (∀ bo, v ≠ .Bool bo) →
      interp_statement (f + 1) st (.While c b) il = .err (.BadArg v)) ∧
    (interp_expression f st c = .ok (.Bool false, st₁) →
      interp_statement (f + 1) st (.While c b) il = .ok ((.Nil, .Normal), st₁)) ∧
    (interp_expression f st c = .ok (.Bool true, st₁) →
      (∀ v, interp_statement f st₁ b true = .ok ((v, .Return), st₂) →
        interp_statement (f + 1) st (.While c b) il = .ok ((v, .Return), st₂)) ∧
      (∀ v, interp_statement f st₁ b true = .ok ((v, .Break), st₂) →
        interp_statement (f + 1) st (.While c b) il = .ok ((.Nil, .Normal), st₂)) ∧
      (∀ v, interp_statement f st₁ b true = .ok ((v, .Normal), st₂) →
        interp_statement (f + 1) st (.While c b) il
          = interp_statement f st₂ (.While c b) il) ∧
      (∀ v, interp_statement f st₁ b true = .ok ((v, .Continue), st₂) →
        interp_statement (f + 1) st (.While c b) il
          = interp_statement f st₂ (.While c b) il)) := by
  refine ⟨?_, ?_, ?_⟩
  · intro v h hv
    cases v with
    | Bool bo => exact absurd rfl (hv bo)
    | _ => simp only [interp_statement, h]
  · intro h
    simp only [interp_statement, h]
  · intro h
    refine ⟨?_, ?_, ?_, ?_⟩ <;> intro v hb <;> simp only [interp_statement, h, hb]

/-- Witness for C4: `while true { break }` terminates immediately with
`(Nil, Normal)`. -/
theorem C4_while_semantics_witness :
    interp_statement 3 ⟨[], []⟩ (.While (.Bool true) .Break) false
      = .ok ((Value.Nil, .Normal), ⟨[], []⟩) :=
  ((C4_while_semantics 2 ⟨[], []⟩ ⟨[], []⟩ ⟨[], []⟩ (.Bool true) .Break false).2.2
    rfl).2.1 .Nil rfl

/-- C5: `&&` and `||` short-circuit.  When the left operand is `false`
(resp. `true`) the `&&` (resp. `||`) result is that boolean and the final
state is exactly the state after the left operand, for an *arbitrary*
right operand — so none of the right operand's effects (environment
writes, `Print` output) occur.  A non-`Bool` left operand fails with
`BadArg` on the left value without evaluating the right; a non-`Bool`
right operand, in the cases where it is evaluated, fails with `BadArg` on
the right value. -/
theorem C5_short_circuit (f : Nat) (st st₁ st₂ : St) (l r : Expr) :
    (interp_expression f st l = .ok (.Bool false, st₁) →
      interp_expression (f + 1) st (.Binary .LogicAnd l r) = .ok (.Bool false, st₁)) ∧
    (interp_expression f st l = .ok (.Bool true, st₁) →
      interp_expression (f + 1) st (.Binary .LogicOr l r) = .ok (.Bool true, st₁)) ∧
    (∀ v, interp_expression f st l = .ok (v, st₁) → (∀ bo, v ≠ .Bool bo) →
      interp_expression (f + 1) st (.Binary .LogicAnd l r) = .err (.BadArg v) ∧
      interp_expression (f + 1) st (.Binary .LogicOr l r) = .err (.BadArg v)) ∧
    (∀ v, interp_expression f st l = .ok (.Bool true, st₁) →
      interp_expression f st₁ r = .ok (v, st₂) → (∀ bo, v ≠ .Bool bo) →
      interp_expression (f + 1) st (.Binary .LogicAnd l r) = .err (.BadArg v)) ∧
    (∀ v, interp_expression f st l = .ok (.Bool false, st₁) →
      interp_expression f st₁ r = .ok (v, st₂) → (∀ bo, v ≠ .Bool bo) →
      interp_expression (f + 1) st (.Binary .LogicOr l r) = .err (.BadArg v)) := by
  refine ⟨?_, ?_, ?_, ?_, ?_⟩
  · intro h
    simp only [interp_expression, h]
  · intro h
    simp only [interp_expression, h]
  · intro v h hv
    cases v with
    | Bool bo => exact absurd rfl (hv bo)
    | _ => exact ⟨by simp only [interp_expression, h], by simp only [interp_expression, h]⟩
  · intro v h hr hv
    cases v with
    | Bool bo => exact absurd rfl (hv bo)
    | _ => simp only [interp_expression, h, hr]
  · intro v h hr hv
    cases v with
    | Bool bo => exact absurd rfl (hv bo)
    | _ => simp only [interp_expression, h, hr]

/-- Witness for C5: `false && print("boom")` and `true || print("boom")`
finish with an empty output sink: the `Print` side effect never runs. -/
theorem C5_short_circuit_witness :
    interp_expression 2 ⟨[], []⟩
        (.Binary .LogicAnd (.Bool false) (.PrimitiveCall .Print [.Str "boom"]))
      = .ok (.Bool false, ⟨[], []⟩) ∧
    interp_expression 2 ⟨[], []⟩
        (.Binary .LogicOr (.Bool true) (.PrimitiveCall .Print [.Str "boom"]))
      = .ok (.Bool true, ⟨[], []⟩) :=
  ⟨(C5_short_circuit 1 ⟨[], []⟩ ⟨[], []⟩ ⟨[], []⟩ (.Bool false)
      (.PrimitiveCall .Print [.Str "boom"])).1 rfl,
   (C5_short_circuit 1 ⟨[], []⟩ ⟨[], []⟩ ⟨[], []⟩ (.Bool true)
      (.PrimitiveCall .Print [.Str "boom"])).2.1 rfl⟩

/-- Counterexample for C7 as stated: an `If` whose condition evaluates to
the non-`Bool` value `Str "s"` fails with the `BadArg` error kind
(displayed `bad argument "s"`), not with the `BadCondition` kind whose
display is `expected boolean value, instead got ...` — the `interp_statement`
`If` arm returns `Err(BadArg(v))`, leaving `error.rs`'s `BadCondition`
variant unused. -/
theorem C7_if_bad_condition_counterexample :
    interp_statement 2 ⟨[], []⟩ (.If (.Str "s") .Break none) false
      = .err (.BadArg (.Str "s")) ∧
    RuntimeError.BadArg (.Str "s") ≠ RuntimeError.BadCondition (.Str "s") ∧
    displayRuntimeError (.BadArg (.Str "s")) = "bad argument \"s\"" ∧
    displayRuntimeError (.BadCondition (.Str "s"))
      = "expected boolean value, instead got s" :=
  ⟨rfl, fun h => RuntimeError.noConfusion h, rfl, rfl⟩

/-- C7 (amended): an `If` whose condition evaluates to a non-`Bool` value
fails with the `BadArg` error kind carrying that value; when the condition
is a `Bool` the chosen branch runs directly on the current state — the
continuation *is* `interp_statement` on the post-condition state, with no
scope clone or merge-back step — and a false condition with no else branch
yields `(Nil, Normal)`. -/
theorem C7_if_semantics (f : Nat) (st st₁ : St) (c : Expr) (t : Statement)
    (e? : Option Statement) (il : Bool) :
    (∀ v, interp_expression f st c = .ok (v, st₁) → (∀ bo, v ≠ .Bool bo) →
      interp_statement (f + 1) st (.If c t e?) il = .err (.BadArg v)) ∧
    (interp_expression f st c = .ok (.Bool true, st₁) →
      interp_statement (f + 1) st (.If c t e?) il = interp_statement f st₁ t il) ∧
    (∀ es, e? = some es → interp_expression f st c = .ok (.Bool false, st₁) →
      interp_statement (f + 1) st (.If c t e?) il = interp_statement f st₁ es il) ∧
    (e? = none → interp_expression f st c = .ok (.Bool false, st₁) →
      interp_statement (f + 1) st (.If c t e?) il = .ok ((.Nil, .Normal), st₁)) := by
  refine ⟨?_, ?_, ?_, ?_⟩
  · intro v h hv
    cases v with
    | Bool bo => exact absurd rfl (hv bo)
    | _ => simp only [interp_statement, h]
  · intro h
    simp only [interp_statement, h, if_true]
  · intro es he h
    simp only [interp_statement, h, he, Bool.false_eq_true, if_false]
  · intro he h
    simp only [interp_statement, h, he, Bool.false_eq_true, if_false]

/-- Witness for C7 (amended): `if 3 ...` fails with `BadArg (Num 3)`;
`if false` with no else branch yields `(Nil, Normal)`. -/
theorem C7_if_semantics_witness :
    interp_statement 2 ⟨[], []⟩ (.If (.Num 3) .Break none) false
      = .err (.BadArg (.Num 3)) ∧
    interp_statement 2 ⟨[], []⟩ (.If (.Bool false) .Break none) false
      = .ok ((Value.Nil, .Normal), ⟨[], []⟩) :=
  ⟨(C7_if_semantics 1 ⟨[], []⟩ ⟨[], []⟩ (.Num 3) .Break none false).1
      (.Num 3) rfl (fun _ h => Value.noConfusion h),
   (C7_if_semantics 1 ⟨[], []⟩ ⟨[], []⟩ (.Bool false) .Break none false).2.2.2
      rfl rfl⟩

/-- C9: the four increment/decrement forms.  On a direct variable operand
currently holding `Num n` they reassign the variable to `n ± 1`; pre-forms
return the new value and post-forms the original `n`.  On any operand that
is not a direct variable reference they fail with
`InvalidAssignmentTarget` before evaluating the operand, and on a variable
holding a non-`Num` value they fail with `BadArg` on that value. -/
theorem C9_increment_decrement (f : Nat) (st : St) (x : String) (n : Rat)
    (m : Mutability) :
    (Environment.lookupEntry st.env x = some (.Num n, m) →
      interp_expression (f + 2) st (.Unary .PreIncrement (.Var x))
        = .ok (.Num (n + 1), ⟨st.env.setEntry x (.Num (n + 1)) m, st.out⟩) ∧
      interp_expression (f + 2) st (.Unary .PostIncrement (.Var x))
        = .ok (.Num n, ⟨st.env.setEntry x (.Num (n + 1)) m, st.out⟩) ∧
      interp_expression (f + 2) st (.Unary .PreDecrement (.Var x))
        = .ok (.Num (n - 1), ⟨st.env.setEntry x (.Num (n - 1)) m, st.out⟩) ∧
      interp_expression (f + 2) st (.Unary .PostDecrement (.Var x))
        = .ok (.Num n, ⟨st.env.setEntry x (.Num (n - 1)) m, st.out⟩)) ∧
    (∀ operand, (∀ y, operand ≠ .Var y) →
      interp_expression (f + 2) st (.Unary .PreIncrement operand)
        = .err .InvalidAssignmentTarget ∧
      interp_expression (f + 2) st (.Unary .PostIncrement operand)
        = .err .InvalidAssignmentTarget ∧
      interp_expression (f + 2) st (.Unary .PreDecrement operand)
        = .err .InvalidAssignmentTarget ∧
      interp_expression (f + 2) st (.Unary .PostDecrement operand)
        = .err .InvalidAssignmentTarget) ∧
    (∀ v, Environment.lookupEntry st.env x = some (v, m) → (∀ q, v ≠ .Num q) →
      interp_expression (f + 2) st (.Unary .PreIncrement (.Var x))
        = .err (.BadArg v) ∧
      interp_expression (f + 2) st (.Unary .PostIncrement (.Var x))
        = .err (.BadArg v) ∧
      interp_expression (f + 2) st (.Unary .PreDecrement (.Var x))
        = .err (.BadArg v) ∧
      interp_expression (f + 2) st (.Unary .PostDecrement (.Var x))
        = .err (.BadArg v)) := by
  refine ⟨?_, ?_, ?_⟩
  · intro h
    refine ⟨?_, ?_, ?_, ?_⟩ <;>
      simp only [interp_expression, Environment.get, Environment.reassign, h]
  · intro operand hop
    cases operand with
    | Var y => exact absurd rfl (hop y)
    | _ =>
      refine ⟨?_, ?_, ?_, ?_⟩ <;> simp only [interp_expression]
  · intro v h hv
    cases v with
    | Num q => exact absurd rfl (hv q)
    | _ =>
      refine ⟨?_, ?_, ?_, ?_⟩ <;>
        simp only [interp_expression, Environment.get, h]

/-- Witness for C9: with mutable `x = 5`, `++x` returns `5 + 1` and
stores it, `x++` returns `5` and stores `5 + 1`; literal operands are
invalid assignment targets. -/
theorem C9_increment_decrement_witness :
    interp_expression 2 ⟨[("x", .Num 5, .Mutable)], []⟩
        (.Unary .PreIncrement (.Var "x"))
      = .ok (.Num ((5 : Rat) + 1),
          ⟨Environment.setEntry [("x", .Num 5, .Mutable)] "x" (.Num ((5 : Rat) + 1))
            .Mutable, []⟩) ∧
    interp_expression 2 ⟨[("x", .Num 5, .Mutable)], []⟩
        (.Unary .PostIncrement (.Var "x"))
      = .ok (.Num 5,
          ⟨Environment.setEntry [("x", .Num 5, .Mutable)] "x" (.Num ((5 : Rat) + 1))
            .Mutable, []⟩) ∧
    interp_expression 2 ⟨[("x", .Num 5, .Mutable)], []⟩
        (.Unary .PreDecrement (.Num 3))
      = .err .InvalidAssignmentTarget ∧
    interp_expression 2 ⟨[("x", .Num 5, .Mutable)], []⟩
        (.Unary .PostDecrement (.Str "s"))
      = .err .InvalidAssignmentTarget := by
  have h₁ := (C9_increment_decrement 0 ⟨[("x", .Num 5, .Mutable)], []⟩ "x" 5
    .Mutable).1 rfl
  have h₂ := (C9_increment_decrement 0 ⟨[("x", .Num 5, .Mutable)], []⟩ "x" 5
    .Mutable).2.1
  exact ⟨h₁.1, h₁.2.1,
    (h₂ (.Num 3) (fun _ h => Expr.noConfusion h)).2.2.1,
    (h₂ (.Str "s") (fun _ h => Expr.noConfusion h)).2.2.2⟩

/-- C10: a binary `/` whose operands evaluate to `Num`s always succeeds
with a `Num` — the `Div` arm has no zero test, so a zero divisor is not a
runtime error (and the `RuntimeError` enum declared in `error.rs` has no
divide-by-zero kind to report one with). -/
theorem C10_division_total (f : Nat) (st st₁ st₂ : St) (l r : Expr) (a b : Rat)
    (h₁ : interp_expression f st l = .ok (.Num a, st₁))
    (h₂ : interp_expression f st₁ r = .ok (.Num b, st₂)) :
    interp_expression (f + 1) st (.Binary .Div l r) = .ok (.Num (a / b), st₂) := by
  simp only [interp_expression, applyBinary, h₁, h₂]

/-- Witness for C10: `1 / 0` succeeds with a `Num` result. -/
theorem C10_division_total_witness :
    interp_expression 2 ⟨[], []⟩ (.Binary .Div (.Num 1) (.Num 0))
      = .ok (.Num ((1 : Rat) / 0), ⟨[], []⟩) :=
  C10_division_total 1 ⟨[], []⟩ ⟨[], []⟩ ⟨[], []⟩ (.Num 1) (.Num 0) 1 0 rfl rfl

/-- C6: indexing a list.  Indexing the *empty* list at the in-claim
"out-of-bounds" index `0` does not produce the `IndexOutOfBounds` error
the claim states: the bound check `index as usize > list.len() - 1`
subtracts from the unsigned length `0`, so the evaluation panics instead
(`Outcome.panicked`).  For non-empty lists the claimed behavior holds:
index `3` and `-1` on a 3-element list fail with `IndexOutOfBounds`
carrying the index, a fractional index fails with `ExpectedInteger`, and
an in-range index returns the element. -/
theorem C6_empty_list_index_panics :
    interp_expression 3 ⟨[], []⟩ (.Index (.PrimitiveCall .List []) (.Num 0))
      = .panicked ∧
    interp_expression 8 ⟨[], []⟩
        (.Index (.PrimitiveCall .List [.Num 1, .Num 2, .Num 3]) (.Num 3))
      = .err (.IndexOutOfBounds 3) ∧
    interp_expression 8 ⟨[], []⟩
        (.Index (.PrimitiveCall .List [.Num 1, .Num 2, .Num 3]) (.Num (-1)))
      = .err (.IndexOutOfBounds (-1)) ∧
    interp_expression 8 ⟨[], []⟩
        (.Index (.PrimitiveCall .List [.Num 1, .Num 2, .Num 3]) (.Num (mkRat 3 2)))
      = .err (.ExpectedInteger (toString (mkRat 3 2))) ∧
    interp_expression 8 ⟨[], []⟩
        (.Index (.PrimitiveCall .List [.Num 1, .Num 2, .Num 3]) (.Num 1))
      = .ok (.Num 2, ⟨[], []⟩) :=
  ⟨rfl, rfl, rfl, rfl, rfl⟩

/-- C8: calling a 1-parameter procedure `f` with 2 arguments fails with
`ArgMismatch("f", 1, 2)` — fields `(name, parameter count, argument
count)` as the call site constructs them, and *before* the arguments are
evaluated (the first argument here is an unbound variable, whose own
error never surfaces).  But `error.rs` displays the third field as the
expected count and the second as the one actually got, so the
human-readable message reports the *argument* count `2` as expected and
the *parameter* count `1` as got — the opposite of the claim (and of the
call site's own `// expected` / `// actual` comments). -/
theorem C8_arg_mismatch_swapped :
    interp_expression 3
        ⟨[("f", .Proc ["a"] (.Return (some (.Var "a"))) [], .Constant)], []⟩
        (.Call (.Var "f") [.Var "undefinedName", .Nil])
      = .err (.ArgMismatch "f" 1 2) ∧
    displayRuntimeError (.ArgMismatch "f" 1 2)
      = "procedure f expected 2 args, instead got 1" :=
  ⟨rfl, rfl⟩
